import Mathlib

/-!
Verification of the `Lucacez/personal` blog repository.

The repository contains two React components and one MDX blog document:

* `src/pages/info.js` — the `Info` page. It reads the ambient `colorMode`
  from `useColorMode()`, looks it up in the object literal
  `colorSecondary = { light: 'gray.700', dark: 'gray.400' }`, and renders a
  fixed head title, heading and paragraph, with the looked-up color token
  on the paragraph.
* `src/unnamed/part_000` — the `Comment` component. It renders a `Giscus`
  widget with eight hardcoded string props and reads no ambient state.
* `src/data/blog/optimizations-contracts.mdx` — a blog document with a
  front-matter header (title, publishedAt, summary) followed by a markdown
  body.

JavaScript property access is modelled explicitly so that access with a key
missing from an object yields `undefined` rather than an error, while access
on `undefined` itself throws; rendering is modelled as `Except`, with
`Except.error` standing for a thrown exception during render.
-/

/-- A JavaScript value, restricted to the shapes that occur in the two
components: `undefined`, strings, and object literals with string keys. -/
inductive JSValue where
  | undef
  | str (s : String)
  | obj (fields : List (String × JSValue))
  deriving Repr

/-- JavaScript member access `v[key]`. On an object it yields the bound
value, or `undefined` when the key is absent; on a string it yields
`undefined` (no property of that name exists on the primitives used here);
on `undefined` it throws a TypeError. -/
def getProp : JSValue → String → Except String JSValue
  | JSValue.obj fields, key => Except.ok ((fields.lookup key).getD JSValue.undef)
  | JSValue.str _, _ => Except.ok JSValue.undef
  | JSValue.undef, _ => Except.error "TypeError: cannot read properties of undefined"

/-- The object literal `colorSecondary` from `src/pages/info.js`, lines
14-17: `{ light: 'gray.700', dark: 'gray.400' }`. -/
def colorSecondary : JSValue :=
  JSValue.obj [("light", JSValue.str "gray.700"), ("dark", JSValue.str "gray.400")]

/-- The `<Heading>` text of the Info page (`info.js` line 39). -/
def infoHeading : String := "Hi, I\x27m Luca Cespedes"

/-- The `<Text>` content of the Info page (`info.js` lines 40-43), one list
entry per text segment between `<br />` elements, with the JSX whitespace
around each segment normalised away. -/
def infoParagraph : List String :=
  ["I am a Smart Contract developer and blockchain enthusiast.",
   "In this blog I will be uploading posts about all this, not only to share it with you, but to help me to have a place to come to when I forget some things 😁.",
   "All comments on the posts are welcome, and in fact if you find any mistakes, I would appreciate if you mention them to correct them. "]

/-- The observable output of one render of the Info page: the document head
title, the heading text, the paragraph segments, and the value passed as the
`color` prop of the `<Text>` element. -/
structure InfoRender where
  headTitle : String
  heading : String
  paragraph : List String
  textColor : JSValue
  deriving Repr

/-- The `Info` component from `src/pages/info.js`: given the ambient
`colorMode` string it evaluates `colorSecondary[colorMode]` (line 40) and
renders the fixed text with that color value. The only evaluation step that
could throw is the member access, so the render is its `Except` composed
with the fixed output record. -/
def Info (colorMode : String) : Except String InfoRender := do
  let c ← getProp colorSecondary colorMode
  pure { headTitle := "Info - Luca Cespedes",
         heading := infoHeading,
         paragraph := infoParagraph,
         textColor := c }

/-- The prop record passed to the `Giscus` element by the `Comment`
component (`src/unnamed/part_000`, lines 5-14), all eight props verbatim. -/
structure GiscusConfig where
  repo : String
  repoId : String
  category : String
  categoryId : String
  mapping : String
  reactionsEnabled : String
  emitMetadata : String
  theme : String
  deriving Repr, DecidableEq

/-- The literal prop values from `src/unnamed/part_000`, lines 6-13. -/
def giscusProps : GiscusConfig :=
  { repo := "melvnl/melvinliu.com",
    repoId := "R_kgDOHk-dUg",
    category := "General",
    categoryId := "DIC_kwDOHk-dUs4CP-Ao",
    mapping := "pathname",
    reactionsEnabled := "0",
    emitMetadata := "0",
    theme := "dark" }

/-- The `Comment` component from `src/unnamed/part_000`. It takes no props
and reads no hook, so its render is modelled as a function of an arbitrary
ambient state that it ignores; its body contains no throwing operation, so
the render always succeeds with the fixed prop record. -/
def Comment {α : Type} (_a : α) : Except String GiscusConfig :=
  Except.ok giscusProps

/-- The prop record flattened to its (name, value) pairs; every prop of the
`Giscus` element is a string literal, so the list is string-to-string. -/
def GiscusConfig.fieldList (c : GiscusConfig) : List (String × String) :=
  [("repo", c.repo), ("repoId", c.repoId), ("category", c.category),
   ("categoryId", c.categoryId), ("mapping", c.mapping),
   ("reactionsEnabled", c.reactionsEnabled), ("emitMetadata", c.emitMetadata),
   ("theme", c.theme)]

/-- The front-matter header of a blog document. -/
structure FrontMatter where
  title : String
  publishedAt : String
  summary : String
  deriving Repr, DecidableEq

/-- Modelled from the spec: the front-matter field syntax used by the
external MDX pipeline, one field per line, `key: 'value'` with the value in
single quotes. Yields the unquoted value when the line has that shape. -/
def parseQuotedField (key line : String) : Option String :=
  let pre := (key ++ ": \x27").data
  if line.data.take pre.length = pre then
    match (line.data.drop pre.length).reverse with
    | '\x27' :: rest => some (String.mk rest.reverse)
    | _ => none
  else none

/-- Splits a character list on a separator character; groups may be empty. -/
def splitOnChar (c : Char) : List Char → List (List Char)
  | [] => [[]]
  | x :: xs =>
      let r := splitOnChar c xs
      if x = c then [] :: r
      else
        match r with
        | [] => [[x]]
        | g :: gs => (x :: g) :: gs

/-- The numeric value of a digit-character list. -/
def digitsToNat (cs : List Char) : Nat :=
  cs.foldl (fun n c => 10 * n + (c.toNat - 48)) 0

/-- A valid `YYYY-MM-DD` date string: three dash-separated digit groups of
widths 4, 2 and 2, with the month in 1..12 and the day in 1..31. -/
def validDate (s : String) : Bool :=
  match splitOnChar '-' s.data with
  | [y, m, d] =>
      (y.length == 4) && (m.length == 2) && (d.length == 2) &&
      y.all Char.isDigit && m.all Char.isDigit && d.all Char.isDigit &&
      decide (1 ≤ digitsToNat m) && decide (digitsToNat m ≤ 12) &&
      decide (1 ≤ digitsToNat d) && decide (digitsToNat d ≤ 31)
  | _ => false

/-- Modelled from the spec: the fixed front-matter schema consumed by the
external MDX pipeline, which is not part of this repository. A document is
a `---` line, then exactly a `title`, a `publishedAt` and a `summary` field,
then a closing `---` line, followed by the markdown/JSX body. -/
def parseFrontMatterDoc : List String → Option (FrontMatter × List String)
  | "---" :: tLine :: pLine :: sLine :: "---" :: body => do
      let t ← parseQuotedField "title" tLine
      let p ← parseQuotedField "publishedAt" pLine
      let s ← parseQuotedField "summary" sLine
      pure ({ title := t, publishedAt := p, summary := s }, body)
  | _ => none

/-- Lines 1-8 of `src/data/blog/optimizations-contracts.mdx`, verbatim: the
complete front-matter header and the start of the body. The remaining lines
9-363 are further markdown prose and code samples; they only extend the
body, which is already nonempty within these lines. -/
def optimizationsContractsDoc : List String :=
  ["---",
   "title: \x27Optimizations Solidity Smart Contracts\x27",
   "publishedAt: \x272022-06-29\x27",
   "summary: \x27Post to be updated over time with recommended optimizations for Solidity.\x27",
   "---",
   "",
   "",
   "Gas optimization is a matter of doing what is cheap and avoiding what is expensive in terms of gas costs on EVM blockchains."]

/-- The theme-independent parts of an Info render: head title, heading and
paragraph, with the color value dropped. -/
def infoTextParts (m : String) : Option (String × String × List String) :=
  (Info m).toOption.map (fun r => (r.headTitle, r.heading, r.paragraph))

/-- The `colorSecondary[colorMode]` access always succeeds and yields the
light token on "light", the dark token on "dark", and `undefined` on any
other key. -/
theorem colorSecondary_lookup_eq (m : String) :
    getProp colorSecondary m =
      Except.ok (if m = "light" then JSValue.str "gray.700"
                 else if m = "dark" then JSValue.str "gray.400"
                 else JSValue.undef) := by
  by_cases h1 : m = "light"
  · subst h1; rfl
  · by_cases h2 : m = "dark"
    · subst h2; rfl
    · simp only [getProp, colorSecondary, List.lookup, if_neg h1, if_neg h2]
      rw [show (m == "light") = false from beq_eq_false_iff_ne.mpr h1,
        show (m == "dark") = false from beq_eq_false_iff_ne.mpr h2]
      rfl

/-- Every render of the Info page succeeds and produces the fixed text with
the color value of the `colorSecondary` lookup. -/
theorem Info_eq (m : String) :
    Info m = Except.ok
      { headTitle := "Info - Luca Cespedes",
        heading := infoHeading,
        paragraph := infoParagraph,
        textColor := if m = "light" then JSValue.str "gray.700"
                     else if m = "dark" then JSValue.str "gray.400"
                     else JSValue.undef } := by
  rw [Info, colorSecondary_lookup_eq]
  rfl

/-- C1: the theme-to-color selection of the Info page yields a color token
exactly for the two theme mode values "light" and "dark"; no third value
yields a token, and the mapping is total over that two-valued enumeration. -/
theorem colorSecondary_total_on_two_modes (m : String) :
    (∃ t, getProp colorSecondary m = Except.ok (JSValue.str t)) ↔
      (m = "light" ∨ m = "dark") := by
  rw [colorSecondary_lookup_eq]
  by_cases h1 : m = "light"
  · simp [h1]
  · by_cases h2 : m = "dark"
    · simp [h1, h2]
    · simp [h1, h2]

/-- C2: rendering the Info page with ambient theme mode "light" selects the
light-mode token gray.700, and with "dark" the dark-mode token gray.400. -/
theorem info_color_token_per_mode :
    (∃ r, Info "light" = Except.ok r ∧ r.textColor = JSValue.str "gray.700") ∧
    (∃ r, Info "dark" = Except.ok r ∧ r.textColor = JSValue.str "gray.400") :=
  ⟨⟨_, Info_eq "light", rfl⟩, ⟨_, Info_eq "dark", rfl⟩⟩

/-- C3: every render of the Comment widget, under any ambient state of any
type, passes a configuration with theme "dark" and mapping "pathname". -/
theorem comment_theme_and_mapping_fixed (α : Type) (a : α) :
    ∃ cfg, Comment a = Except.ok cfg ∧ cfg.theme = "dark" ∧ cfg.mapping = "pathname" :=
  ⟨giscusProps, rfl, rfl, rfl⟩

/-- C4: rendering either component never throws when the ambient theme mode
is one of the two supported values "light" and "dark": the Info render on
that mode and the Comment render under any ambient state both succeed. -/
theorem render_never_throws (m : String) (_h : m = "light" ∨ m = "dark") :
    (Info m).isOk = true ∧ ∀ (α : Type) (a : α), (Comment a).isOk = true := by
  refine ⟨?_, fun α a => rfl⟩
  rw [Info_eq]
  rfl

/-- Witness for C4 at the concrete mode "light". -/
theorem render_never_throws_witness :
    (Info "light").isOk = true ∧ ∀ (α : Type) (a : α), (Comment a).isOk = true :=
  render_never_throws "light" (Or.inl rfl)

/-- C5: the one blog content document in the repository parses into a
front-matter header with a nonempty title string, a valid publishedAt date
string and a summary string, followed by a nonempty markdown body. -/
theorem blog_front_matter_valid :
    ∃ fm body, parseFrontMatterDoc optimizationsContractsDoc = some (fm, body) ∧
      fm.title = "Optimizations Solidity Smart Contracts" ∧
      fm.title ≠ "" ∧
      validDate fm.publishedAt = true ∧
      fm.publishedAt = "2022-06-29" ∧
      fm.summary = "Post to be updated over time with recommended optimizations for Solidity." ∧
      body.any (fun l => l ≠ "") = true := by
  refine ⟨{ title := "Optimizations Solidity Smart Contracts",
            publishedAt := "2022-06-29",
            summary := "Post to be updated over time with recommended optimizations for Solidity." },
          ["", "", "Gas optimization is a matter of doing what is cheap and avoiding what is expensive in terms of gas costs on EVM blockchains."],
          ?_, rfl, ?_, ?_, rfl, rfl, ?_⟩
  · rfl
  · decide
  · rfl
  · decide

/-- C6: the Comment widget configuration is a record of string-valued
fields only, and its two boolean-like feature flags reactionsEnabled and
emitMetadata are both disabled, serialized as the string "0". -/
theorem comment_flags_disabled_and_fields_strings :
    giscusProps.reactionsEnabled = "0" ∧ giscusProps.emitMetadata = "0" ∧
    giscusProps.fieldList =
      [("repo", "melvnl/melvinliu.com"), ("repoId", "R_kgDOHk-dUg"),
       ("category", "General"), ("categoryId", "DIC_kwDOHk-dUs4CP-Ao"),
       ("mapping", "pathname"), ("reactionsEnabled", "0"),
       ("emitMetadata", "0"), ("theme", "dark")] :=
  ⟨rfl, rfl, rfl⟩

/-- C7: the Comment widget is deterministic: under any two ambient states of
any two types, the two renders produce the identical configuration record,
namely the one record defined once and passed unchanged. -/
theorem comment_deterministic (α β : Type) (a : α) (b : β) :
    Comment a = Comment b ∧ Comment a = Except.ok giscusProps :=
  ⟨rfl, rfl⟩

/-- C8: the text content of the Info page is static: for any two ambient
theme modes, in particular "light" and "dark", the head title, heading and
paragraph of the two renders agree; only the color token varies. -/
theorem info_text_static (m₁ m₂ : String) :
    infoTextParts m₁ = infoTextParts m₂ ∧
    infoTextParts "light" = infoTextParts "dark" := by
  constructor
  · simp [infoTextParts, Info_eq, Except.toOption]
  · simp [infoTextParts, Info_eq, Except.toOption]

/-- C9: for an ambient colorMode outside the two keys of the lookup object,
the lookup yields no token (undefined) and the Info render still completes
without throwing; a third value is not rejected. -/
theorem info_unknown_mode_renders (m : String) (h1 : m ≠ "light") (h2 : m ≠ "dark") :
    Info m = Except.ok
      { headTitle := "Info - Luca Cespedes",
        heading := infoHeading,
        paragraph := infoParagraph,
        textColor := JSValue.undef } := by
  rw [Info_eq]
  rw [if_neg h1, if_neg h2]

/-- Witness for C9 at the concrete ambient value "blue". -/
theorem info_unknown_mode_renders_witness :
    Info "blue" = Except.ok
      { headTitle := "Info - Luca Cespedes",
        heading := infoHeading,
        paragraph := infoParagraph,
        textColor := JSValue.undef } :=
  info_unknown_mode_renders "blue" (by decide) (by decide)

/-- C10: on every render the Comment widget passes exactly the fixed
identifier set repo melvnl/melvinliu.com, repoId R_kgDOHk-dUg, category
General and categoryId DIC_kwDOHk-dUs4CP-Ao; the repository identifier names
a repository other than this one (Lucacez/personal). -/
theorem comment_fixed_identifiers (α : Type) (a : α) :
    Comment a = Except.ok giscusProps ∧
    giscusProps.repo = "melvnl/melvinliu.com" ∧
    giscusProps.repoId = "R_kgDOHk-dUg" ∧
    giscusProps.category = "General" ∧
    giscusProps.categoryId = "DIC_kwDOHk-dUs4CP-Ao" ∧
    giscusProps.repo ≠ "Lucacez/personal" :=
  ⟨rfl, rfl, rfl, rfl, rfl, by decide⟩
